import Mathlib

/-!
Shallow embedding of `src/playerinfo.rs` (runecore/worldinfo): the per-tick
player-interest encoder (`PlayerInfo`), its visibility registry, pending-update
store and bit encoder, together with theorems settling the frozen claims.

Modelling conventions:
* `Slab` is modelled as a `List` (this development only exercises add-only
  histories, where `Slab::vacant_key` equals the length).
* `i32` / `i8` / `i16` values are modelled as `Int`; the places where Rust
  truncates (`as u32`, `as i8`, byte writes) perform the corresponding
  `emod`-based two's-complement truncation explicitly.
* The `BitWriter<BigEndian>` is a `List Bool` (most significant bit first);
  `write(w, v)` appends the low `w` bits of the `u32` value `v`.  The byte
  cursor buffers are `List Nat` with every element in `0..256`.
* Rust `Result` is `Except String`; a `panic!`-style `.expect(msg)` is also
  modelled as `Except.error msg` (both abort the tick).
* `String` payloads are modelled as their cp1252 byte lists.
* The Rust field `local` is called `is_local` here (`local` is reserved).
-/

/-- `MAX_PLAYERS` from the source. -/
def MAX_PLAYERS : Nat := 2047

/-- `UPDATE_GROUP_ACTIVE` from the source. -/
def UPDATE_GROUP_ACTIVE : Int := 0

/-- `UPDATE_GROUP_INACTIVE` from the source. -/
def UPDATE_GROUP_INACTIVE : Int := 1

/-- `REBUILD_BOUNDARY` from the source. -/
def REBUILD_BOUNDARY : Int := 16

/-- `LOCAL_MOVEMENT_NONE` from the source. -/
def LOCAL_MOVEMENT_NONE : Nat := 0

/-- `LOCAL_MOVEMENT_WALK` from the source. -/
def LOCAL_MOVEMENT_WALK : Nat := 1

/-- `LOCAL_MOVEMENT_RUN` from the source. -/
def LOCAL_MOVEMENT_RUN : Nat := 2

/-- `LOCAL_MOVEMENT_TELEPORT` from the source. -/
def LOCAL_MOVEMENT_TELEPORT : Nat := 3

/-- `struct MovementUpdate` (accumulated absolute movement delta). -/
structure MovementUpdate where
  x : Int
  y : Int
  z : Int


/-- `struct AppearanceMask` (the appearance mask of the player).
`username` holds the cp1252 bytes of the Rust `String`. -/
structure AppearanceMask where
  gender : Int
  skull : Bool
  overhead_prayer : Int
  head : Int
  cape : Int
  neck : Int
  weapon : Int
  body : Int
  shield : Int
  arms : Int
  is_full_body : Bool
  legs : Int
  hair : Int
  covers_hair : Bool
  hands : Int
  feet : Int
  covers_face : Bool
  beard : Int
  colors_hair : Int
  colors_torso : Int
  colors_legs : Int
  colors_feet : Int
  colors_skin : Int
  weapon_stance_stand : Int
  weapon_stance_turn : Int
  weapon_stance_walk : Int
  weapon_stance_turn180 : Int
  weapon_stance_turn90cw : Int
  weapon_stance_turn90ccw : Int
  weapon_stance_run : Int
  username : List Nat
  combat_level : Int
  skill_id_level : Int
  hidden : Int


/-- `struct DirectionMask` (the direction mask of the player). -/
structure DirectionMask where
  direction : Int


/-- `struct PlayerMasks`: at most one stored payload per payload-bearing mask. -/
structure PlayerMasks where
  appearance_mask : Option AppearanceMask
  direction_mask : Option DirectionMask


/-- `struct PlayerUpdate`: the shared per-subject pending-update record. -/
structure PlayerUpdate where
  masks : PlayerMasks
  mask_flags : Nat
  movement_steps : List (Int × Int)
  displaced : Bool
  movement_update : MovementUpdate


/-- `struct PlayerInfoData`: one (viewer, subject) pair record.
The Rust field `local` is renamed `is_local` (`local` is a Lean keyword). -/
structure PlayerInfoData where
  flags : Int
  is_local : Bool
  coordinates : Int
  reset : Bool
  local_to_global : Bool
  global_to_local : Bool


/-- `struct PlayerInfo`: rows of pair records (one row per viewer) plus the
per-subject `PlayerUpdate` slab. -/
structure PlayerInfo where
  playerinfos : List (List PlayerInfoData)
  playerupdates : List PlayerUpdate

/-! ## Bit / byte primitives (`bitstream_io` and `osrs_buffer` semantics) -/

/-- The low `w` bits of `n`, most significant first — the effect of
`BitWriter::<BigEndian>::write(w, n)` on the bit stream. -/
def natBits : Nat → Nat → List Bool
  | 0, _ => []
  | w + 1, n => natBits w (n / 2) ++ [n % 2 == 1]

/-- Big-endian value of a bit list (used by the skip-count decoder). -/
def bitsVal (l : List Bool) : Nat :=
  l.foldl (fun a b => 2 * a + (if b then 1 else 0)) 0

/-- `write(w, v as u32)` for an `i32` value `v`: two's-complement cast to
`u32`, then the low `w` bits. -/
def bitWriteI (w : Nat) (v : Int) : List Bool :=
  natBits w (v % 4294967296).toNat

/-- `BitWriter::byte_align`: pad with zero bits to a byte boundary. -/
def byteAlign (bits : List Bool) : List Bool :=
  bits ++ List.replicate ((8 - bits.length % 8) % 8) false

/-- Collect a byte-aligned bit stream into bytes (as `BitWriter::into_writer`
returns only the completed bytes). -/
def bytesOfBits : List Bool → List Nat
  | b7 :: b6 :: b5 :: b4 :: b3 :: b2 :: b1 :: b0 :: rest =>
      bitsVal [b7, b6, b5, b4, b3, b2, b1, b0] :: bytesOfBits rest
  | _ => []

/-- `osrs_buffer::WriteExt::write_i8`: one two's-complement byte. -/
def write_i8 (x : Int) : List Nat := [(x.emod 256).toNat]

/-- `osrs_buffer::WriteExt::write_i16`: two bytes, big endian. -/
def write_i16 (x : Int) : List Nat :=
  [(x.emod 65536).toNat / 256, (x.emod 256).toNat]

/-- `osrs_buffer::WriteExt::write_i16_add`: high byte, then low byte plus 128
(the legacy "add" transform). -/
def write_i16_add (x : Int) : List Nat :=
  [(x.emod 65536).toNat / 256, ((x.emod 256).toNat + 128) % 256]

/-- `osrs_buffer::WriteExt::write_string_cp1252`: the cp1252 bytes followed by
a zero terminator. -/
def write_string_cp1252 (s : List Nat) : List Nat := s ++ [0]

/-- `osrs_buffer::WriteExt::write_bytes_reversed_add`: the buffer reversed,
each byte offset by 128. -/
def write_bytes_reversed_add (b : List Nat) : List Nat :=
  b.reverse.map (fun x => (x + 128) % 256)

/-! ## `write_skip_count` and its decoding table -/

/-- `write_skip_count` from the source: the variable-width run-length code for
a run of `skip_count` pairs needing no update.  The `player_update` argument
is accepted and ignored, as in the source. -/
def write_skip_count (skip_count : Int) (_player_update : Bool) :
    Except String (List Bool) :=
  if skip_count = 0 then
    .ok (bitWriteI 2 skip_count)
  else if skip_count < 32 then
    .ok (natBits 2 1 ++ bitWriteI 5 skip_count)
  else if skip_count < 256 then
    .ok (natBits 2 2 ++ bitWriteI 8 skip_count)
  else if skip_count > (MAX_PLAYERS : Int) then
    .error "Skip count out of range error"
  else
    .ok (natBits 2 3 ++ natBits 11 (min MAX_PLAYERS skip_count.toNat))

/-- Read `w` bits (big endian) off the front of a bit stream. -/
def readBits (w : Nat) (l : List Bool) : Nat × List Bool :=
  (bitsVal (l.take w), l.drop w)

/-- Decoder for the skip-count table of `write_skip_count`: a 2-bit selector,
then 0 / 5 / 8 / 11 count bits. -/
def decode_skip_count (l : List Bool) : Nat :=
  let s := readBits 2 l
  if s.1 = 0 then 0
  else if s.1 = 1 then (readBits 5 s.2).1
  else if s.1 = 2 then (readBits 8 s.2).1
  else (readBits 11 s.2).1

/-! ## Direction tables and movement / removal writers -/

/-- `get_direction_rotation` from the source. -/
def get_direction_rotation (some_movement : Int × Int) : Except String Int :=
  match some_movement with
  | (-1, -1) => .ok 0
  | (0, -1) => .ok 1
  | (1, -1) => .ok 2
  | (-1, 0) => .ok 3
  | (1, 0) => .ok 4
  | (-1, 1) => .ok 5
  | (0, 1) => .ok 6
  | (1, 1) => .ok 7
  | _ => .error "Failed getting direction rotation"

/-- `run_dir` from the source: the 16-direction run table. -/
def run_dir (dx dy : Int) : Option Int :=
  match dx, dy with
  | -2, -2 => some 0
  | -1, -2 => some 1
  | 0, -2 => some 2
  | 1, -2 => some 3
  | 2, -2 => some 4
  | -2, -1 => some 5
  | 2, -1 => some 6
  | -2, 0 => some 7
  | 2, 0 => some 8
  | -2, 1 => some 9
  | 2, 1 => some 10
  | -2, 2 => some 11
  | -1, 2 => some 12
  | 0, 2 => some 13
  | 1, 2 => some 14
  | 2, 2 => some 15
  | _, _ => none

/-- `walk_dir` from the source: the 8-direction walk table. -/
def walk_dir (dx dy : Int) : Option Int :=
  match dx, dy with
  | -1, -1 => some 0
  | 0, -1 => some 1
  | 1, -1 => some 2
  | -1, 0 => some 3
  | 1, 0 => some 4
  | -1, 1 => some 5
  | 0, 1 => some 6
  | 1, 1 => some 7
  | _, _ => none

/-- `write_coordinate_multiplier` from the source: the coordinate-diff code
used by the local departure record.  Note the source derives both
`current_multiplier_x` and `current_level` from `(value >> 8)`. -/
def write_coordinate_multiplier (old_multiplier new_multiplier : Int) :
    List Bool :=
  let current_multiplier_y := Int.land new_multiplier 0xFF
  let current_multiplier_x := Int.land (new_multiplier >>> 8) 0xFF
  let current_level := Int.land (new_multiplier >>> 8) 0x3
  let last_multiplier_y := Int.land old_multiplier 0xFF
  let last_multiplier_x := Int.land (old_multiplier >>> 8) 0xFF
  let last_level := Int.land (old_multiplier >>> 8) 0x3
  let diff_x := current_multiplier_x - last_multiplier_x
  let diff_y := current_multiplier_y - last_multiplier_y
  let diff_level := current_level - last_level
  let level_change := diff_level ≠ 0
  let small_change := diff_x.natAbs ≤ 1 ∧ diff_y.natAbs ≤ 1
  if level_change then
    natBits 2 1 ++ bitWriteI 2 diff_level
  else if small_change then
    let direction : Nat :=
      if diff_x = -1 ∧ diff_y = -1 then 0
      else if diff_x = 1 ∧ diff_y = -1 then 2
      else if diff_x = -1 ∧ diff_y = 1 then 5
      else if diff_x = 1 ∧ diff_y = 1 then 7
      else if diff_y = -1 then 1
      else if diff_x = -1 then 3
      else if diff_x = 1 then 4
      else 6
    natBits 2 2 ++ bitWriteI 2 diff_level ++ natBits 3 direction
  else
    natBits 2 3 ++ bitWriteI 2 diff_level ++ bitWriteI 8 diff_x ++
      bitWriteI 8 diff_y

/-- `remove_local_player` from the source: the local-to-global departure
record.  The source ignores the pair record it is given and uses the
hardcoded placeholder coordinates `123` / `12311`. -/
def remove_local_player (_playerinfo : PlayerInfoData)
    (local_player_mask_update_required : Bool) : Except String (List Bool) :=
  let new_coordinates : Int := 123
  let record_coordinates : Int := 12311
  let coordinate_change := new_coordinates ≠ record_coordinates
  .ok ([local_player_mask_update_required] ++ natBits 2 0 ++
    [decide coordinate_change] ++
    (if coordinate_change then
      write_coordinate_multiplier record_coordinates new_coordinates
    else []))

/-- `write_local_movement` from the source.  Note `teleport` is
`large_change || false`: the `displaced` flag plays no role in the branch.
On the walk/run path the queued steps are cleared. -/
def write_local_movement (playerinfoentry : PlayerUpdate) (mask_update : Bool) :
    Except String (List Bool × PlayerUpdate) :=
  let direction_diff_x : List Int := [-1, 0, 1, -1, 1, -1, 0, 1]
  let direction_diff_y : List Int := [-1, -1, -1, 0, 0, 1, 1, 1]
  let movement_update := playerinfoentry.movement_update
  let large_change := movement_update.x.natAbs ≥ REBUILD_BOUNDARY.toNat ∨
    movement_update.y.natAbs ≥ REBUILD_BOUNDARY.toNat
  let teleport := large_change ∨ False
  if teleport then
    .ok ([mask_update] ++ natBits 2 LOCAL_MOVEMENT_TELEPORT ++
      [decide large_change] ++ bitWriteI 2 (Int.land movement_update.z 0x3) ++
      (if large_change then
        bitWriteI 14 (Int.land movement_update.x 0x3FFF) ++
          bitWriteI 14 (Int.land movement_update.y 0x3FFF)
      else
        bitWriteI 5 (Int.land movement_update.x 0x1F) ++
          bitWriteI 5 (Int.land movement_update.y 0x1F)),
      playerinfoentry)
  else
    match playerinfoentry.movement_steps[0]? with
    | none => .error "failed getting walk step"
    | some walk_step =>
      match get_direction_rotation walk_step with
      | .error e => .error e
      | .ok walk_rotation =>
        match direction_diff_x[walk_rotation.toNat]?,
            direction_diff_y[walk_rotation.toNat]? with
        | some dx0, some dy0 =>
          let second : Except String (Int × Int) :=
            match playerinfoentry.movement_steps[1]? with
            | none => .ok (dx0, dy0)
            | some run_step =>
              match get_direction_rotation run_step with
              | .error e => .error e
              | .ok run_rotation =>
                match direction_diff_x[run_rotation.toNat]?,
                    direction_diff_y[run_rotation.toNat]? with
                | some dx1, some dy1 => .ok (dx0 + dx1, dy0 + dy1)
                | _, _ => .error "dx 2"
          match second with
          | .error e => .error e
          | .ok (dx, dy) =>
            let hasSecond := playerinfoentry.movement_steps[1]?.isSome
            let runLookup := if hasSecond then run_dir dx dy else none
            let cleared := { playerinfoentry with movement_steps := [] }
            match runLookup with
            | some direction =>
              .ok ([mask_update] ++ natBits 2 LOCAL_MOVEMENT_RUN ++
                bitWriteI 4 direction, cleared)
            | none =>
              let direction := (walk_dir dx dy).getD 0
              .ok ([mask_update] ++ natBits 2 LOCAL_MOVEMENT_WALK ++
                bitWriteI 3 direction, cleared)
        | _, _ => .error "dx"

/-- `write_mask_update_signal` from the source: movement type `NONE`
announcing a mask-only update. -/
def write_mask_update_signal : List Bool :=
  [true] ++ natBits 2 LOCAL_MOVEMENT_NONE

/-! ## Mask payload writers -/

/-- `write_direction_mask` from the source. -/
def write_direction_mask (direction_mask : DirectionMask) : List Nat :=
  write_i16_add direction_mask.direction

/-- `write_appearance_mask` from the source: the fixed-layout appearance
record, assembled into a scratch buffer, then written as a one-byte length
prefix followed by the buffer reversed with the "add" transform. -/
def write_appearance_mask (appearance_mask : AppearanceMask) : List Nat :=
  let temp_buf :=
    write_i8 appearance_mask.gender ++
    (if appearance_mask.skull then write_i8 1 else write_i8 (-1)) ++
    write_i8 appearance_mask.overhead_prayer ++
    write_i8 0 ++
    write_i8 0 ++
    write_i8 0 ++
    write_i8 0 ++
    write_i16 (256 + 18) ++
    write_i8 0 ++
    write_i16 (256 + appearance_mask.arms) ++
    write_i16 (256 + appearance_mask.legs) ++
    write_i16 (256 + appearance_mask.hair) ++
    write_i16 (256 + appearance_mask.hands) ++
    write_i16 (256 + appearance_mask.feet) ++
    (if appearance_mask.gender = 0 then
      write_i16 (256 + appearance_mask.beard)
    else
      write_i16 0) ++
    write_i8 appearance_mask.colors_hair ++
    write_i8 appearance_mask.colors_torso ++
    write_i8 appearance_mask.colors_legs ++
    write_i8 appearance_mask.colors_feet ++
    write_i8 appearance_mask.colors_skin ++
    write_i16 appearance_mask.weapon_stance_stand ++
    write_i16 appearance_mask.weapon_stance_turn ++
    write_i16 appearance_mask.weapon_stance_walk ++
    write_i16 appearance_mask.weapon_stance_turn180 ++
    write_i16 appearance_mask.weapon_stance_turn90cw ++
    write_i16 appearance_mask.weapon_stance_turn90ccw ++
    write_i16 appearance_mask.weapon_stance_run ++
    write_string_cp1252 appearance_mask.username ++
    write_i8 appearance_mask.combat_level ++
    write_i16 appearance_mask.skill_id_level ++
    write_i8 appearance_mask.hidden
  write_i8 (Int.ofNat temp_buf.length) ++ write_bytes_reversed_add temp_buf

/-- `MOVEMENT_FORCED_MASK` from the source. -/
def MOVEMENT_FORCED_MASK : Nat := 0x200

/-- `SPOT_ANIMATION_MASK` from the source. -/
def SPOT_ANIMATION_MASK : Nat := 0x800

/-- `SEQUENCE_MASK` from the source. -/
def SEQUENCE_MASK : Nat := 0x80

/-- `APPEARANCE_MASK` from the source. -/
def APPEARANCE_MASK : Nat := 0x2

/-- `SHOUT_MASK` from the source. -/
def SHOUT_MASK : Nat := 0x20

/-- `LOCK_TURNTO_MASK` from the source. -/
def LOCK_TURNTO_MASK : Nat := 0x4

/-- `MOVEMENT_CACHED_MASK` from the source. -/
def MOVEMENT_CACHED_MASK : Nat := 0x1000

/-- `CHAT_MASK` from the source. -/
def CHAT_MASK : Nat := 0x1

/-- `NAME_MODIFIERS_MASK` from the source. -/
def NAME_MODIFIERS_MASK : Nat := 0x100

/-- `HIT_MASK` from the source. -/
def HIT_MASK : Nat := 0x10

/-- `MOVEMENT_TEMPORARY_MASK` from the source. -/
def MOVEMENT_TEMPORARY_MASK : Nat := 0x400

/-- `DIRECTION_MASK` from the source. -/
def DIRECTION_MASK : Nat := 0x8

/-- `MASKS` from the source: the fixed global priority order in which mask
payloads are written. -/
def MASKS : List Nat :=
  [MOVEMENT_FORCED_MASK, SPOT_ANIMATION_MASK, SEQUENCE_MASK, APPEARANCE_MASK,
   SHOUT_MASK, LOCK_TURNTO_MASK, MOVEMENT_CACHED_MASK, CHAT_MASK,
   NAME_MODIFIERS_MASK, HIT_MASK, MOVEMENT_TEMPORARY_MASK, DIRECTION_MASK]

/-- The mask-bits header of `write_mask_update`: one byte, or two bytes with
the `0x40` extension marker when the bitset reaches `0xFF`. -/
def maskHeader (mask_flags : Nat) : List Nat :=
  if mask_flags ≥ 0xFF then
    [(mask_flags ||| 0x40) % 256, (mask_flags >>> 8) % 256]
  else
    [mask_flags % 256]

/-- The `for mask in MASKS` loop body of `write_mask_update`: for each mask
constant, if `mask_flags & mask` matches a payload-bearing mask's bit value,
take (consume) that payload — a missing payload is the source's
`.expect(...)` abort — otherwise do nothing. -/
def write_masks_in_order (mask_flags : Nat) (masks : PlayerMasks) :
    List Nat → Except String (List Nat × PlayerMasks)
  | [] => .ok ([], masks)
  | mask :: rest =>
    let mask_id := mask_flags &&& mask
    if mask_id = APPEARANCE_MASK then
      match masks.appearance_mask with
      | none => .error "missing appearance mask"
      | some a =>
        match write_masks_in_order mask_flags
            { masks with appearance_mask := none } rest with
        | .error e => .error e
        | .ok (bs, ms) => .ok (write_appearance_mask a ++ bs, ms)
    else if mask_id = DIRECTION_MASK then
      match masks.direction_mask with
      | none => .error "missing direction mask"
      | some d =>
        match write_masks_in_order mask_flags
            { masks with direction_mask := none } rest with
        | .error e => .error e
        | .ok (bs, ms) => .ok (write_direction_mask d ++ bs, ms)
    else
      write_masks_in_order mask_flags masks rest

/-- `write_mask_update` from the source: the mask-bits header, then every
payload in `MASKS` order, then `mask_flags` is zeroed. -/
def write_mask_update (playerinfo : PlayerUpdate) :
    Except String (List Nat × PlayerUpdate) :=
  match write_masks_in_order playerinfo.mask_flags playerinfo.masks MASKS with
  | .error e => .error e
  | .ok (bs, ms) =>
    .ok (maskHeader playerinfo.mask_flags ++ bs,
      { playerinfo with mask_flags := 0, masks := ms })

/-! ## Visibility registry: pair records, adding players, aging -/

/-- The pair record built by `add_playerinfodata` in the source. -/
def mkPlayerInfoData (is_local : Bool) (coordinates : Int) : PlayerInfoData :=
  { flags := 0, is_local := is_local, coordinates := coordinates,
    reset := false, local_to_global := false, global_to_local := false }

/-- `add_playerinfodata` from the source: insert a fresh pair record. -/
def add_playerinfodata (playerinfo : List PlayerInfoData) (is_local : Bool)
    (coordinates : Int) : List PlayerInfoData :=
  playerinfo ++ [mkPlayerInfoData is_local coordinates]

/-- The row-building loop of `add_player`: for each `playerinfo` in
`0..MAX_PLAYERS`, add a local record when the index equals the new player's
id, and always add a non-local record. -/
def buildRowGo (playerinfo_id : Nat) (coordinates : Int) :
    Nat → Nat → List PlayerInfoData
  | _, 0 => []
  | k, n + 1 =>
    (if playerinfo_id = k then [mkPlayerInfoData true coordinates] else []) ++
      mkPlayerInfoData false 0 :: buildRowGo playerinfo_id coordinates (k + 1) n

/-- `add_player` from the source: reject when the vacant key exceeds
`MAX_PLAYERS`, else insert a fresh row and a fresh `PlayerUpdate`. -/
def add_player (st : PlayerInfo) (coordinates : Int) :
    Except String PlayerInfo :=
  let playerinfo_id := st.playerinfos.length
  if playerinfo_id > MAX_PLAYERS then
    .error "Maximum amount of players processable by PlayerInfo reached"
  else
    .ok { playerinfos :=
            st.playerinfos ++ [buildRowGo playerinfo_id coordinates 0 MAX_PLAYERS],
          playerupdates :=
            st.playerupdates ++
              [{ movement_steps := [], displaced := false,
                 movement_update := { x := 0, y := 0, z := 0 }, mask_flags := 0,
                 masks := { appearance_mask := none, direction_mask := none } }] }

/-- `add_player_appearance_mask` from the source: store the payload and OR
`APPEARANCE_MASK` into the pending bits. -/
def add_player_appearance_mask (st : PlayerInfo) (player_id : Nat)
    (appearance_mask : AppearanceMask) : Except String PlayerInfo :=
  match st.playerupdates[player_id]? with
  | none => .error "failed getting player"
  | some pu =>
    let pu' := { pu with
      masks := { pu.masks with appearance_mask := some appearance_mask },
      mask_flags := pu.mask_flags ||| APPEARANCE_MASK }
    .ok { st with playerupdates := st.playerupdates.set player_id pu' }

/-- `add_player_direction_mask` from the source: store the payload and OR
`DIRECTION_MASK` into the pending bits. -/
def add_player_direction_mask (st : PlayerInfo) (player_id : Nat)
    (direction_mask : DirectionMask) : Except String PlayerInfo :=
  match st.playerupdates[player_id]? with
  | none => .error "failed getting player"
  | some pu =>
    let pu' := { pu with
      masks := { pu.masks with direction_mask := some direction_mask },
      mask_flags := pu.mask_flags ||| DIRECTION_MASK }
    .ok { st with playerupdates := st.playerupdates.set player_id pu' }

/-- The per-pair body of `PlayerInfo::group`: right-shift the flags
(arithmetic shift, as on `i32`), then zero the record if `reset` is set. -/
def group1 (e : PlayerInfoData) : PlayerInfoData :=
  let e := { e with flags := e.flags >>> 1 }
  if e.reset then
    { flags := 0, is_local := false, coordinates := 0, reset := false,
      local_to_global := false, global_to_local := false }
  else
    e

/-- The `for i in 0..MAX_PLAYERS { self.group(player_id, i).ok(); }` loop of
`process`, applied to the viewer's row: age the first `fuel` records
(out-of-range indices are silently ignored, as `.ok()` discards the error). -/
def ageRowGo : Nat → List PlayerInfoData → List PlayerInfoData → List PlayerInfoData
  | 0, acc, rest => acc.reverse ++ rest
  | _ + 1, acc, [] => acc.reverse
  | n + 1, acc, e :: rest => ageRowGo n (group1 e :: acc) rest

/-! ## The four per-viewer passes -/

/-- The group/locality guard of the local passes (`playerinfo.rs:331`): the
pair is local and its flags match the update group. -/
def localVisits (update_group : Int) (e : PlayerInfoData) : Bool :=
  e.is_local && ((Int.land update_group 0x1) == e.flags)

/-- The group/locality guard of the global passes (`playerinfo.rs:475`,
negated `continue` condition): the pair is global and its flags match the
update group. -/
def globalVisits (update_group : Int) (e : PlayerInfoData) : Bool :=
  !e.is_local && ((Int.land update_group 0x1) == e.flags)

/-- The scan loop of `get_local_skip_count`, over the part of the viewer's
row from `offset` (the list `rem`) up to `MAX_PLAYERS`; `fuel` is the number
of remaining loop iterations.  The loop breaks at the first in-group entry
(`is_update_required` is the constant `true` in the source), so the returned
count is never incremented. -/
def local_skip_scan_go (update_group : Int) (count : Nat) :
    Nat → List PlayerInfoData → Except String Nat
  | 0, _ => .ok count
  | _ + 1, [] => .error "failed 2"
  | n + 1, e :: rest =>
    if !(localVisits update_group e) then
      local_skip_scan_go update_group count n rest
    else
      let is_update_required := true
      if is_update_required then .ok count
      else local_skip_scan_go update_group (count + 1) n rest

/-- `get_local_skip_count` from the source, reading the row suffix that
starts at `offset`. -/
def get_local_skip_count (update_group : Int) (offset : Nat)
    (rem : List PlayerInfoData) : Except String Nat :=
  local_skip_scan_go update_group 0 (MAX_PLAYERS - offset) rem

/-- The scan loop of `get_global_skip_count`: count the in-group global
entries of the row suffix (no break). -/
def global_skip_scan_go (update_group : Int) (count : Nat) :
    Nat → List PlayerInfoData → Except String Nat
  | 0, _ => .ok count
  | _ + 1, [] => .error "failed 2"
  | n + 1, e :: rest =>
    if !(globalVisits update_group e) then
      global_skip_scan_go update_group count n rest
    else
      global_skip_scan_go update_group (count + 1) n rest

/-- `get_global_skip_count` from the source, reading the row suffix that
starts at `offset`. -/
def get_global_skip_count (update_group : Int) (offset : Nat)
    (rem : List PlayerInfoData) : Except String Nat :=
  global_skip_scan_go update_group 0 (MAX_PLAYERS - offset) rem

/-- The body of the local pass for one non-skipped in-group pair `e` at index
`i` with pending-update record `pu` (`rest` is the row suffix after `e`, read
by the skip scan).  Returns the new pair record, the new `PlayerUpdate`, the
bits written, the mask-buffer bytes written, and the new skip counter. -/
def local_body (update_group : Int) (e : PlayerInfoData)
    (rest : List PlayerInfoData) (i : Nat) (pu : PlayerUpdate) :
    Except String (PlayerInfoData × PlayerUpdate × List Bool × List Nat × Nat) :=
  let mask_update := decide (0 < pu.mask_flags)
  let movement_update := !pu.movement_steps.isEmpty || pu.displaced
  let player_update := e.local_to_global || mask_update || movement_update
  let core : Except String (PlayerInfoData × PlayerUpdate × List Bool × Nat) :=
    if player_update then
      if e.local_to_global then
        let e' := { e with reset := true }
        match remove_local_player e' mask_update with
        | .error err => .error err
        | .ok bs => .ok (e', pu, player_update :: bs, 0)
      else if movement_update then
        match write_local_movement pu mask_update with
        | .error err => .error err
        | .ok (bs, pu') => .ok (e, pu', player_update :: bs, 0)
      else
        .ok (e, pu, player_update :: write_mask_update_signal, 0)
    else
      let e' := { e with flags := Int.lor e.flags 0x2 }
      match get_local_skip_count update_group (i + 1) rest with
      | .error err => .error err
      | .ok sk =>
        let bs :=
          match write_skip_count (Int.ofNat sk) player_update with
          | .ok wbits => wbits
          | .error _ => []
        .ok (e', pu, player_update :: bs, sk)
  match core with
  | .error err => .error err
  | .ok (e', pu', bs, sk) =>
    if mask_update then
      match write_mask_update pu' with
      | .error err => .error err
      | .ok (mbytes, pu'') => .ok (e', pu'', bs, mbytes, sk)
    else
      .ok (e', pu', bs, [], sk)

/-- The `for current_player_id in 0..MAX_PLAYERS` loop of
`local_player_info`, processing the viewer's row in place (`i` is the index
of the head of `row`, `fuel` the remaining iterations; `bacc`, `macc` and
`racc` accumulate the bits, mask bytes and processed row in reverse).
Returns the bits, the mask-buffer bytes, the updated row and the updated
`PlayerUpdate` slab. -/
def lpiGo (update_group : Int) :
    Nat → Nat → Nat → List PlayerUpdate → List Bool → List Nat →
    List PlayerInfoData → List PlayerInfoData →
    Except String (List Bool × List Nat × List PlayerInfoData × List PlayerUpdate)
  | 0, _, _, updates, bacc, macc, racc, rest =>
    .ok (bacc.reverse, macc.reverse, racc.reverse ++ rest, updates)
  | _ + 1, _, _, _, _, _, _, [] => .error "failed 2"
  | fuel + 1, i, skip, updates, bacc, macc, racc, e :: rest =>
    if !(localVisits update_group e) then
      lpiGo update_group fuel (i + 1) skip updates bacc macc (e :: racc) rest
    else if skip > 0 then
      lpiGo update_group fuel (i + 1) (skip - 1) updates bacc macc
        ({ e with flags := Int.lor e.flags 0x2 } :: racc) rest
    else
      match updates[i]? with
      | none => .error "testy boi"
      | some pu =>
        match local_body update_group e rest i pu with
        | .error err => .error err
        | .ok (e', pu', bs1, ms1, sk) =>
          lpiGo update_group fuel (i + 1) sk (updates.set i pu')
            (bs1.reverse ++ bacc) (ms1.reverse ++ macc) (e' :: racc) rest

/-- `local_player_info` from the source, for one viewer row. -/
def local_player_info (row : List PlayerInfoData)
    (updates : List PlayerUpdate) (update_group : Int) :
    Except String (List Bool × List Nat × List PlayerInfoData × List PlayerUpdate) :=
  lpiGo update_group MAX_PLAYERS 0 0 updates [] [] [] row

/-- The `for other_player_id in 0..MAX_PLAYERS` loop of
`global_player_info`.  The player-addition branch of the source is entirely
commented out (`global_to_local` is tested but its block is empty), so every
non-skipped in-group pair writes a `false` update bit and starts a skip
run. -/
def gpiGo (update_group : Int) :
    Nat → Nat → Nat → List Bool → List PlayerInfoData →
    List PlayerInfoData → Except String (List Bool × List PlayerInfoData)
  | 0, _, _, bacc, racc, rest => .ok (bacc.reverse, racc.reverse ++ rest)
  | _ + 1, _, _, _, _, [] => .error "failed 2"
  | fuel + 1, i, skip, bacc, racc, e :: rest =>
    if !(globalVisits update_group e) then
      gpiGo update_group fuel (i + 1) skip bacc (e :: racc) rest
    else if skip > 0 then
      gpiGo update_group fuel (i + 1) (skip - 1) bacc
        ({ e with flags := Int.lor e.flags 0x2 } :: racc) rest
    else
      let player_update := false
      let e' := { e with flags := Int.lor e.flags 0x2 }
      match get_global_skip_count update_group (i + 1) rest with
      | .error err => .error err
      | .ok sk =>
        let bs1 :=
          match write_skip_count (Int.ofNat sk) false with
          | .ok wbits => wbits
          | .error _ => []
        gpiGo update_group fuel (i + 1) sk
          (bs1.reverse ++ player_update :: bacc) (e' :: racc) rest

/-- `global_player_info` from the source, for one viewer row. -/
def global_player_info (row : List PlayerInfoData) (update_group : Int) :
    Except String (List Bool × List PlayerInfoData) :=
  gpiGo update_group MAX_PLAYERS 0 0 [] [] row

/-- `PlayerInfo::process` from the source: for one viewer, run the four
passes (local active, local inactive, global inactive, global active), each
followed by a byte alignment, append the mask buffer, then age the viewer's
row (`group`).  A missing viewer yields an empty buffer. -/
def process (st : PlayerInfo) (player_id : Nat) :
    Except String (List Nat × PlayerInfo) :=
  match st.playerinfos[player_id]? with
  | none => .ok ([], st)
  | some row =>
    match local_player_info row st.playerupdates UPDATE_GROUP_ACTIVE with
    | .error err => .error err
    | .ok (b1, m1, row1, upd1) =>
      match local_player_info row1 upd1 UPDATE_GROUP_INACTIVE with
      | .error err => .error err
      | .ok (b2, m2, row2, upd2) =>
        match global_player_info row2 UPDATE_GROUP_INACTIVE with
        | .error err => .error err
        | .ok (b3, row3) =>
          match global_player_info row3 UPDATE_GROUP_ACTIVE with
          | .error err => .error err
          | .ok (b4, row4) =>
            let bits :=
              byteAlign (byteAlign (byteAlign (byteAlign b1 ++ b2) ++ b3) ++ b4)
            let out := bytesOfBits bits ++ (m1 ++ m2)
            let agedRow := ageRowGo MAX_PLAYERS [] row4
            .ok (out,
              { playerinfos := st.playerinfos.set player_id agedRow,
                playerupdates := upd2 })

/-- One tick: call `process` for each viewer in order, collecting the
per-viewer byte buffers. -/
def processTick : List Nat → PlayerInfo →
    Except String (List (List Nat) × PlayerInfo)
  | [], st => .ok ([], st)
  | v :: vs, st =>
    match process st v with
    | .error err => .error err
    | .ok (out, st') =>
      match processTick vs st' with
      | .error err => .error err
      | .ok (outs, st'') => .ok (out :: outs, st'')


/-- The row a successful local pass leaves behind (an erroring pass leaves
the row as is; the passes are only chained on success). -/
def rowAfterLocal (row : List PlayerInfoData) (updates : List PlayerUpdate)
    (update_group : Int) : List PlayerInfoData :=
  match local_player_info row updates update_group with
  | .ok (_, _, r, _) => r
  | .error _ => row

/-- The `PlayerUpdate` slab a successful local pass leaves behind. -/
def updAfterLocal (row : List PlayerInfoData) (updates : List PlayerUpdate)
    (update_group : Int) : List PlayerUpdate :=
  match local_player_info row updates update_group with
  | .ok (_, _, _, u) => u
  | .error _ => updates

/-- The row a successful global pass leaves behind. -/
def rowAfterGlobal (row : List PlayerInfoData) (update_group : Int) :
    List PlayerInfoData :=
  match global_player_info row update_group with
  | .ok (_, r) => r
  | .error _ => row

/-! ## Concrete scenario states and pointwise pass relations -/

/-- The appearance payload of the end-to-end test (username "Sage" as cp1252
bytes). -/
def sageAppearance : AppearanceMask :=
  { gender := 0, skull := false, overhead_prayer := -1, head := 0, cape := 0,
    neck := 0, weapon := 0, body := 0, shield := 0, is_full_body := false,
    legs := 36, covers_hair := false, hands := 33, feet := 42,
    covers_face := false, colors_hair := 0, colors_torso := 0,
    colors_legs := 0, colors_feet := 0, colors_skin := 0,
    weapon_stance_stand := 808, weapon_stance_turn := 823,
    weapon_stance_walk := 819, weapon_stance_turn180 := 820,
    weapon_stance_turn90cw := 821, weapon_stance_turn90ccw := 822,
    weapon_stance_run := 824, username := [83, 97, 103, 101],
    combat_level := 126, skill_id_level := 0, hidden := 0, arms := 26,
    hair := 0, beard := 10 }

/-- A `PlayerUpdate` with nothing pending. -/
def puEmpty : PlayerUpdate :=
  { movement_steps := [], displaced := false,
    movement_update := { x := 0, y := 0, z := 0 }, mask_flags := 0,
    masks := { appearance_mask := none, direction_mask := none } }

/-- A `PlayerUpdate` with a pending direction mask (direction `1536`). -/
def puDir : PlayerUpdate :=
  { movement_steps := [], displaced := false,
    movement_update := { x := 0, y := 0, z := 0 }, mask_flags := DIRECTION_MASK,
    masks := { appearance_mask := none,
               direction_mask := some { direction := 1536 } } }

/-- Two viewers (0 and 1) that both hold subject 0 as a local pair in the
active group, while subject 0 has a pending direction mask: the state of the
read-only tick invariant's regression scenario. -/
def sharedSubjectState : PlayerInfo :=
  { playerinfos :=
      [mkPlayerInfoData true 123 ::
         List.replicate MAX_PLAYERS (mkPlayerInfoData false 0),
       mkPlayerInfoData true 0 ::
         List.replicate MAX_PLAYERS (mkPlayerInfoData false 0)],
    playerupdates := [puDir, puEmpty] }

/-- How a local pass may change one pair record: locality is untouched, the
flags either stay or get the `0x2` marker OR'd in, and a pair the pass does
not visit is untouched entirely. -/
def localRel (update_group : Int) (e e' : PlayerInfoData) : Prop :=
  e'.is_local = e.is_local ∧
  (e'.flags = e.flags ∨ e'.flags = Int.lor e.flags 0x2) ∧
  (localVisits update_group e = false → e' = e)

/-- How a global pass may change one pair record: an unvisited pair is
untouched, a visited pair gets exactly the `0x2` marker OR'd into its flags
and keeps its locality. -/
def globalRel (update_group : Int) (e e' : PlayerInfoData) : Prop :=
  e'.is_local = e.is_local ∧
  (globalVisits update_group e = false → e' = e) ∧
  (globalVisits update_group e = true → e'.flags = Int.lor e.flags 0x2)

/-! ## Theorems -/

/-- `write_skip_count` does not read its `player_update` argument. -/
theorem write_skip_count_pu_irrelevant (skip_count : Int) (a b : Bool) :
    write_skip_count skip_count a = write_skip_count skip_count b := rfl

/-- `natBits` always produces exactly `w` bits. -/
theorem natBits_length (w n : Nat) : (natBits w n).length = w := by
  induction w generalizing n with
  | zero => rfl
  | succ w ih => simp [natBits, ih]

/-- Appending one bit doubles the big-endian value and adds the bit. -/
theorem bitsVal_append (l : List Bool) (b : Bool) :
    bitsVal (l ++ [b]) = 2 * bitsVal l + (if b then 1 else 0) := by
  simp [bitsVal, List.foldl_append]

/-- `natBits` and `bitsVal` are inverse up to truncation at `w` bits. -/
theorem bitsVal_natBits (w n : Nat) : bitsVal (natBits w n) = n % 2 ^ w := by
  induction w generalizing n with
  | zero => simp [natBits, bitsVal, Nat.mod_one]
  | succ w ih =>
    rw [natBits, bitsVal_append, ih]
    have hmod : (if (n % 2 == 1) = true then 1 else 0) = n % 2 := by
      rcases Nat.mod_two_eq_zero_or_one n with h | h <;> simp [h]
    rw [hmod, pow_succ, mul_comm (2 ^ w) 2, Nat.mod_mul]
    omega

/-- `write(w, n as u32)` of a small nonnegative value is just its `w` bits. -/
theorem bitWriteI_cast (w n : Nat) (h : n < 4294967296) :
    bitWriteI w (n : Int) = natBits w n := by
  unfold bitWriteI
  congr 1
  rw [Int.emod_eq_of_lt (by omega) (by omega)]
  simp

/-- Reading the leading `w`-bit field of `natBits w n ++ rest` recovers
`n % 2 ^ w` and leaves `rest`. -/
theorem readBits_natBits (w n : Nat) (rest : List Bool) :
    readBits w (natBits w n ++ rest) = (n % 2 ^ w, rest) := by
  unfold readBits
  rw [List.take_left' (natBits_length w n), List.drop_left' (natBits_length w n),
    bitsVal_natBits]

/-- Reading a `w`-bit field off exactly `natBits w n`. -/
theorem readBits_natBits_nil (w n : Nat) :
    readBits w (natBits w n) = (n % 2 ^ w, []) := by
  have := readBits_natBits w n []
  simpa using this

/-- Encode-decode round-trip of the skip-count code on `0 ≤ n ≤ 2047`. -/
theorem decode_encode_skip (n : Nat) (h : n < 2048) :
    ∃ bits, write_skip_count (n : Int) true = .ok bits ∧
      decode_skip_count bits = n := by
  rcases Nat.lt_or_ge n 1 with h0 | h0
  · have hn : n = 0 := by omega
    subst hn
    exact ⟨natBits 2 0, rfl, rfl⟩
  · rcases Nat.lt_or_ge n 32 with h1 | h1
    · refine ⟨natBits 2 1 ++ natBits 5 n, ?_, ?_⟩
      · unfold write_skip_count
        rw [if_neg (by omega), if_pos (by omega), bitWriteI_cast 5 n (by omega)]
      · simp only [decode_skip_count, readBits_natBits]
        norm_num
        rw [readBits_natBits_nil]
        simp
        omega
    · rcases Nat.lt_or_ge n 256 with h2 | h2
      · refine ⟨natBits 2 2 ++ natBits 8 n, ?_, ?_⟩
        · unfold write_skip_count
          rw [if_neg (by omega), if_neg (by omega), if_pos (by omega),
            bitWriteI_cast 8 n (by omega)]
        · simp only [decode_skip_count, readBits_natBits]
          norm_num
          rw [readBits_natBits_nil]
          simp
          omega
      · refine ⟨natBits 2 3 ++ natBits 11 n, ?_, ?_⟩
        · unfold write_skip_count
          have hmax : (MAX_PLAYERS : Int) = 2047 := by simp [MAX_PLAYERS]
          rw [if_neg (by omega), if_neg (by omega), if_neg (by omega),
            if_neg (by rw [hmax]; omega)]
          have hmin : min MAX_PLAYERS (n : Int).toNat = n := by
            simp only [MAX_PLAYERS]
            omega
          rw [hmin]
        · simp only [decode_skip_count, readBits_natBits]
          norm_num
          rw [readBits_natBits_nil]
          simp
          omega

/-- C3: for every `0 ≤ skip ≤ 2047`, `write_skip_count` succeeds and decoding
its output with the table (2-bit selector 0/1/2/3, then a 0/5/8/11 bit
count) yields `skip` back; for every `skip > 2047` it returns an
error. -/
theorem write_skip_count_roundtrip :
    (∀ (skip : Int) (pu : Bool), 0 ≤ skip → skip ≤ 2047 →
      ∃ bits, write_skip_count skip pu = .ok bits ∧
        (decode_skip_count bits : Int) = skip) ∧
    (∀ (skip : Int) (pu : Bool), 2047 < skip →
      ∃ msg, write_skip_count skip pu = .error msg) := by
  constructor
  · intro skip pu h0 h1
    have hn : (skip.toNat : Int) = skip := Int.toNat_of_nonneg h0
    have hlt : skip.toNat < 2048 := by omega
    obtain ⟨bits, hE, hdec⟩ := decode_encode_skip skip.toNat hlt
    refine ⟨bits, ?_, ?_⟩
    · rw [write_skip_count_pu_irrelevant skip pu true, ← hn]
      exact hE
    · rw [hdec, hn]
  · intro skip pu h
    refine ⟨"Skip count out of range error", ?_⟩
    have h2047 : (MAX_PLAYERS : Int) = 2047 := by simp [MAX_PLAYERS]
    simp only [write_skip_count, h2047]
    rw [if_neg (by omega), if_neg (by omega), if_neg (by omega),
      if_pos (by omega)]

/-- Witness for C3 at `skip = 500` and `skip = 2048`. -/
theorem write_skip_count_roundtrip_witness :
    (∃ bits, write_skip_count 500 true = .ok bits ∧
      (decode_skip_count bits : Int) = 500) ∧
    (∃ msg, write_skip_count 2048 false = .error msg) :=
  ⟨write_skip_count_roundtrip.1 500 true (by decide) (by decide),
   write_skip_count_roundtrip.2 2048 false (by decide)⟩

/-- C5: after the aging pass, a pair whose `reset` flag was set is
field-for-field the record a fresh non-local `add_playerinfodata` insertion
at coordinate 0 produces, and a pair whose `reset` flag was clear has exactly
its flags arithmetically right-shifted by one bit. -/
theorem group1_ages_and_resets (e : PlayerInfoData) :
    (e.reset = true → group1 e = mkPlayerInfoData false 0) ∧
    (e.reset = false → group1 e = { e with flags := e.flags >>> 1 }) := by
  constructor <;> intro h <;> simp [group1, mkPlayerInfoData, h]

/-- Witness for C5: a marked pair is zeroed to the fresh record, an unmarked
pair is only shifted. -/
theorem group1_ages_and_resets_witness :
    group1 ⟨5, true, 77, true, true, true⟩ = mkPlayerInfoData false 0 ∧
    group1 ⟨5, true, 77, false, true, true⟩ =
      ⟨(5 : Int) >>> 1, true, 77, false, true, true⟩ :=
  ⟨(group1_ages_and_resets _).1 rfl, (group1_ages_and_resets _).2 rfl⟩

/-- C7 (code bug): a displaced subject with a small accumulated delta and no
queued steps is not encoded as a teleport — `write_local_movement` computes
its branch from `large_change || false`, ignores `displaced`, falls into the
walk/run branch and fails on the missing walk step. -/
theorem write_local_movement_ignores_displaced :
    write_local_movement
      { masks := { appearance_mask := none, direction_mask := none },
        mask_flags := 0, movement_steps := [], displaced := true,
        movement_update := { x := 0, y := 0, z := 0 } } false =
      .error "failed getting walk step" := rfl

/-- C8 (code bug): the capacity check `playerinfo_id > MAX_PLAYERS` is off by
one — a call made when 2047 players are already registered still succeeds, so
2048 players can be registered concurrently. -/
theorem add_player_accepts_beyond_capacity (st : PlayerInfo)
    (coordinates : Int) (h : st.playerinfos.length = MAX_PLAYERS) :
    (add_player st coordinates).isOk = true := by
  simp [add_player, h, Except.isOk, Except.toBool]

/-- Witness for C8: the 2048th `add_player` call succeeds. -/
theorem add_player_accepts_beyond_capacity_witness :
    (add_player
      { playerinfos := List.replicate MAX_PLAYERS [], playerupdates := [] }
      0).isOk = true :=
  add_player_accepts_beyond_capacity _ 0 (by simp)

/-- C9 (code bug): the departure record of `remove_local_player` is computed
from the hardcoded placeholder coordinates `12311` and `123`, not from the
pair's stored `coordinates` — every pair record, whatever its stored
coordinate, produces the identical removal record. -/
theorem remove_local_player_ignores_stored_coordinates
    (p q : PlayerInfoData) (m : Bool) :
    remove_local_player p m = remove_local_player q m := rfl

set_option maxRecDepth 40000 in
/-- C2: starting from an empty `PlayerInfo`, adding one player at coordinate
123, setting the reference appearance mask (gender 0, legs 36, hands 33,
feet 42, arms 26, beard 10, username "Sage", combat level 126, stance ids
808/823/819/820/821/822/824) and a direction mask (1536), then running
`process` for that viewer, produces exactly the reference byte sequence. -/
theorem process_end_to_end_reference_bytes :
    ((add_player { playerinfos := [], playerupdates := [] } 123).bind fun st =>
     (add_player_appearance_mask st 0 sageAppearance).bind fun st =>
     (add_player_direction_mask st 0 { direction := 1536 }).bind fun st =>
     (process st 0).map Prod.fst) =
    .ok [192, 127, 244, 10, 50, 128, 128, 128, 254, 128, 229, 231, 225, 211,
      184, 131, 182, 131, 181, 131, 180, 131, 179, 131, 183, 131, 168, 131,
      128, 128, 128, 128, 128, 138, 129, 170, 129, 161, 129, 128, 129, 164,
      129, 154, 129, 128, 146, 129, 128, 128, 128, 128, 127, 127, 128, 6,
      128] := rfl

set_option maxRecDepth 40000 in
/-- C1 (code bug): with subject 0 local to both viewer 0 and viewer 1 and a
pending direction mask on subject 0, viewer 0's `process` output carries the
mask header and payload (`8, 6, 128`), but `write_mask_update` zeroes the
shared `mask_flags` and takes the payload on that first encode, so viewer 1's
output in the same tick (`0, 127, 244`) contains no mask block at all. -/
theorem shared_subject_mask_lost_for_second_viewer :
    (process sharedSubjectState 0).map Prod.fst =
      .ok [192, 127, 244, 8, 6, 128] ∧
    ((process sharedSubjectState 0).bind fun p =>
      (process p.2 1).map Prod.fst) = .ok [0, 127, 244] := ⟨rfl, rfl⟩

/-- If `m` lacks a bit that `v` has, then `n &&& m` can never equal `v`. -/
theorem and_ne_of_testBit (m v j : Nat) (hm : m.testBit j = false)
    (hv : v.testBit j = true) (n : Nat) : n &&& m ≠ v := by
  intro hEq
  have := congrArg (fun x => Nat.testBit x j) hEq
  simp only [Nat.testBit_and, hm, Bool.and_false, hv] at this
  exact Bool.false_ne_true this

/-- A mask constant whose `&` with the pending bits can match neither
payload-bearing bit value is skipped by the `MASKS` loop without touching
anything. -/
theorem wmio_noop (flags : Nat) (ms : PlayerMasks) (m : Nat)
    (rest : List Nat) (h2 : flags &&& m ≠ APPEARANCE_MASK)
    (h8 : flags &&& m ≠ DIRECTION_MASK) :
    write_masks_in_order flags ms (m :: rest) =
      write_masks_in_order flags ms rest := by
  simp [write_masks_in_order, h2, h8]

/-- Closed form of the `MASKS` loop of `write_mask_update`: only the
appearance and direction steps can fire (in that order — appearance comes
before direction in `MASKS`); every other constant, set bit or not, is
skipped without consuming anything. -/
theorem wmio_masks_eval (flags : Nat) (appOpt : Option AppearanceMask)
    (dirOpt : Option DirectionMask) :
    write_masks_in_order flags ⟨appOpt, dirOpt⟩ MASKS =
      (if flags &&& APPEARANCE_MASK = APPEARANCE_MASK then
        match appOpt with
        | none => .error "missing appearance mask"
        | some a =>
          if flags &&& DIRECTION_MASK = DIRECTION_MASK then
            match dirOpt with
            | none => .error "missing direction mask"
            | some d =>
              .ok (write_appearance_mask a ++ write_direction_mask d,
                ⟨none, none⟩)
          else .ok (write_appearance_mask a, ⟨none, dirOpt⟩)
      else
        if flags &&& DIRECTION_MASK = DIRECTION_MASK then
          match dirOpt with
          | none => .error "missing direction mask"
          | some d => .ok (write_direction_mask d, ⟨appOpt, none⟩)
        else .ok ([], ⟨appOpt, dirOpt⟩)) := by
  have hFa := and_ne_of_testBit MOVEMENT_FORCED_MASK APPEARANCE_MASK 1
    (by decide) (by decide) flags
  have hFd := and_ne_of_testBit MOVEMENT_FORCED_MASK DIRECTION_MASK 3
    (by decide) (by decide) flags
  have hSa := and_ne_of_testBit SPOT_ANIMATION_MASK APPEARANCE_MASK 1
    (by decide) (by decide) flags
  have hSd := and_ne_of_testBit SPOT_ANIMATION_MASK DIRECTION_MASK 3
    (by decide) (by decide) flags
  have hQa := and_ne_of_testBit SEQUENCE_MASK APPEARANCE_MASK 1
    (by decide) (by decide) flags
  have hQd := and_ne_of_testBit SEQUENCE_MASK DIRECTION_MASK 3
    (by decide) (by decide) flags
  have hOa := and_ne_of_testBit SHOUT_MASK APPEARANCE_MASK 1
    (by decide) (by decide) flags
  have hOd := and_ne_of_testBit SHOUT_MASK DIRECTION_MASK 3
    (by decide) (by decide) flags
  have hLa := and_ne_of_testBit LOCK_TURNTO_MASK APPEARANCE_MASK 1
    (by decide) (by decide) flags
  have hLd := and_ne_of_testBit LOCK_TURNTO_MASK DIRECTION_MASK 3
    (by decide) (by decide) flags
  have hCa := and_ne_of_testBit MOVEMENT_CACHED_MASK APPEARANCE_MASK 1
    (by decide) (by decide) flags
  have hCd := and_ne_of_testBit MOVEMENT_CACHED_MASK DIRECTION_MASK 3
    (by decide) (by decide) flags
  have hHa := and_ne_of_testBit CHAT_MASK APPEARANCE_MASK 1
    (by decide) (by decide) flags
  have hHd := and_ne_of_testBit CHAT_MASK DIRECTION_MASK 3
    (by decide) (by decide) flags
  have hNa := and_ne_of_testBit NAME_MODIFIERS_MASK APPEARANCE_MASK 1
    (by decide) (by decide) flags
  have hNd := and_ne_of_testBit NAME_MODIFIERS_MASK DIRECTION_MASK 3
    (by decide) (by decide) flags
  have hIa := and_ne_of_testBit HIT_MASK APPEARANCE_MASK 1
    (by decide) (by decide) flags
  have hId := and_ne_of_testBit HIT_MASK DIRECTION_MASK 3
    (by decide) (by decide) flags
  have hTa := and_ne_of_testBit MOVEMENT_TEMPORARY_MASK APPEARANCE_MASK 1
    (by decide) (by decide) flags
  have hTd := and_ne_of_testBit MOVEMENT_TEMPORARY_MASK DIRECTION_MASK 3
    (by decide) (by decide) flags
  have hAd := and_ne_of_testBit APPEARANCE_MASK DIRECTION_MASK 3
    (by decide) (by decide) flags
  have hDa := and_ne_of_testBit DIRECTION_MASK APPEARANCE_MASK 1
    (by decide) (by decide) flags
  have hDA : DIRECTION_MASK ≠ APPEARANCE_MASK := by decide
  have hAD : APPEARANCE_MASK ≠ DIRECTION_MASK := by decide
  by_cases hA : flags &&& APPEARANCE_MASK = APPEARANCE_MASK <;>
    by_cases hD : flags &&& DIRECTION_MASK = DIRECTION_MASK <;>
    cases appOpt <;> cases dirOpt <;>
    simp [MASKS, write_masks_in_order, hA, hD, hFa, hFd, hSa, hSd, hQa, hQd,
      hOa, hOd, hLa, hLd, hCa, hCd, hHa, hHd, hNa, hNd, hIa, hId, hTa, hTd,
      hAd, hDa, hDA, hAD]

/-- C10 (amended): the mask block writes the header, then exactly one payload
for each set payload-bearing bit (appearance, then direction — the `MASKS`
priority order), taking (consuming) the stored payload; a set
appearance/direction bit with no stored payload aborts the encode; other set
bits are skipped without consuming anything and without error; afterwards
`mask_flags` is zero. -/
theorem write_mask_update_exact (pu : PlayerUpdate) :
    ((write_mask_update pu).isOk = true ↔
      ((pu.mask_flags &&& APPEARANCE_MASK = APPEARANCE_MASK →
        pu.masks.appearance_mask.isSome = true) ∧
       (pu.mask_flags &&& DIRECTION_MASK = DIRECTION_MASK →
        pu.masks.direction_mask.isSome = true))) ∧
    (∀ bytes pu', write_mask_update pu = .ok (bytes, pu') →
      pu'.mask_flags = 0 ∧
      pu'.masks.appearance_mask =
        (if pu.mask_flags &&& APPEARANCE_MASK = APPEARANCE_MASK then none
         else pu.masks.appearance_mask) ∧
      pu'.masks.direction_mask =
        (if pu.mask_flags &&& DIRECTION_MASK = DIRECTION_MASK then none
         else pu.masks.direction_mask) ∧
      pu'.movement_steps = pu.movement_steps ∧
      pu'.displaced = pu.displaced ∧
      bytes = maskHeader pu.mask_flags ++
        (if pu.mask_flags &&& APPEARANCE_MASK = APPEARANCE_MASK then
          (pu.masks.appearance_mask.map write_appearance_mask).getD []
         else []) ++
        (if pu.mask_flags &&& DIRECTION_MASK = DIRECTION_MASK then
          (pu.masks.direction_mask.map write_direction_mask).getD []
         else [])) := by
  obtain ⟨⟨appOpt, dirOpt⟩, flags, steps, disp, mu⟩ := pu
  simp only [write_mask_update, wmio_masks_eval]
  by_cases hA : flags &&& APPEARANCE_MASK = APPEARANCE_MASK <;>
    by_cases hD : flags &&& DIRECTION_MASK = DIRECTION_MASK <;>
    cases appOpt <;> cases dirOpt <;>
    simp [hA, hD, Except.isOk, Except.toBool]

/-- C10 counterexample: a set bit whose mask type has no payload (here
`CHAT_MASK`, with no stored payloads at all) is not a fatal encoding error —
`write_mask_update` succeeds, consumes nothing, emits only the header byte,
and still zeroes the pending bits. -/
theorem write_mask_update_skips_payloadless_bits :
    write_mask_update
      { masks := { appearance_mask := none, direction_mask := none },
        mask_flags := CHAT_MASK, movement_steps := [], displaced := false,
        movement_update := { x := 0, y := 0, z := 0 } } =
      .ok ([1],
        { masks := { appearance_mask := none, direction_mask := none },
          mask_flags := 0, movement_steps := [], displaced := false,
          movement_update := { x := 0, y := 0, z := 0 } }) := rfl

/-- Witness for C10 at a pending direction-only update (`puDir`): the block
is the header byte `8` followed by the direction payload `6, 128`, and the
update record is left fully cleared (`puEmpty`). -/
theorem write_mask_update_exact_witness :
    puEmpty.mask_flags = 0 ∧
    puEmpty.masks.appearance_mask =
      (if puDir.mask_flags &&& APPEARANCE_MASK = APPEARANCE_MASK then none
       else puDir.masks.appearance_mask) ∧
    puEmpty.masks.direction_mask =
      (if puDir.mask_flags &&& DIRECTION_MASK = DIRECTION_MASK then none
       else puDir.masks.direction_mask) ∧
    puEmpty.movement_steps = puDir.movement_steps ∧
    puEmpty.displaced = puDir.displaced ∧
    [8, 6, 128] = maskHeader puDir.mask_flags ++
      (if puDir.mask_flags &&& APPEARANCE_MASK = APPEARANCE_MASK then
        (puDir.masks.appearance_mask.map write_appearance_mask).getD []
       else []) ++
      (if puDir.mask_flags &&& DIRECTION_MASK = DIRECTION_MASK then
        (puDir.masks.direction_mask.map write_direction_mask).getD []
       else []) :=
  (write_mask_update_exact puDir).2 [8, 6, 128] puEmpty rfl

/-- `process` touches only the processed viewer's own row of the visibility
relation: every other viewer's pair row is left untouched (in particular it
is not aged). -/
theorem process_preserves_other_rows (st : PlayerInfo) (v : Nat)
    (out : List Nat) (st' : PlayerInfo) (h : process st v = .ok (out, st'))
    (u : Nat) (huv : u ≠ v) :
    st'.playerinfos[u]? = st.playerinfos[u]? := by
  unfold process at h
  cases hrow : st.playerinfos[v]? with
  | none =>
    rw [hrow] at h
    cases h
    rfl
  | some row =>
    rw [hrow] at h
    dsimp only at h
    rcases h1 : local_player_info row st.playerupdates UPDATE_GROUP_ACTIVE
      with e1 | ⟨b1, m1, row1, upd1⟩
    · rw [h1] at h
      exact absurd h (by simp)
    rw [h1] at h
    dsimp only at h
    rcases h2 : local_player_info row1 upd1 UPDATE_GROUP_INACTIVE
      with e2 | ⟨b2, m2, row2, upd2⟩
    · rw [h2] at h
      exact absurd h (by simp)
    rw [h2] at h
    dsimp only at h
    rcases h3 : global_player_info row2 UPDATE_GROUP_INACTIVE
      with e3 | ⟨b3, row3⟩
    · rw [h3] at h
      exact absurd h (by simp)
    rw [h3] at h
    dsimp only at h
    rcases h4 : global_player_info row3 UPDATE_GROUP_ACTIVE
      with e4 | ⟨b4, row4⟩
    · rw [h4] at h
      exact absurd h (by simp)
    rw [h4] at h
    dsimp only at h
    simp only [Except.ok.injEq, Prod.mk.injEq] at h
    obtain ⟨-, hst⟩ := h
    subst hst
    simp only
    rw [List.getElem?_set_ne (Ne.symm huv)]

/-- Processing a list of viewers leaves the pair row of every viewer not in
the list untouched. -/
theorem processTick_preserves_unprocessed_rows :
    ∀ (vs : List Nat) (st : PlayerInfo) (outs : List (List Nat))
      (st' : PlayerInfo), processTick vs st = .ok (outs, st') →
      ∀ v, v ∉ vs → st'.playerinfos[v]? = st.playerinfos[v]? := by
  intro vs
  induction vs with
  | nil =>
    intro st outs st' h v _
    cases h
    rfl
  | cons u rest ih =>
    intro st outs st' h v hv
    simp only [processTick] at h
    rcases h1 : process st u with e1 | ⟨out, st1⟩
    · rw [h1] at h
      exact absurd h (by simp)
    rw [h1] at h
    dsimp only at h
    rcases h2 : processTick rest st1 with e2 | ⟨outs2, st2⟩
    · rw [h2] at h
      exact absurd h (by simp)
    rw [h2] at h
    simp only [Except.ok.injEq, Prod.mk.injEq] at h
    obtain ⟨-, hst⟩ := h
    subst hst
    have hvu : v ≠ u := by
      intro hEq
      exact hv (hEq ▸ List.mem_cons_self u rest)
    have hvrest : v ∉ rest := fun hmem => hv (List.mem_cons_of_mem u hmem)
    rw [ih st1 outs2 st2 h2 v hvrest,
      process_preserves_other_rows st u out st1 h1 v hvu]

/-- C4: within one tick (a sequence of `process` calls, one per viewer), the
aging of a viewer's pair row happens only inside that viewer's own `process`
call — the processing of all earlier viewers leaves viewer `v`'s row exactly
as it was at the start of the tick (so `v`'s encode passes never read pair
state already aged this tick), and the later viewers never re-age it. -/
theorem aging_per_viewer_not_observed_by_others
    (earlier later : List Nat) (v : Nat) (st st1 st2 st3 : PlayerInfo)
    (outs1 outs2 : List (List Nat)) (o : List Nat)
    (hv1 : v ∉ earlier) (hv2 : v ∉ later)
    (h1 : processTick earlier st = .ok (outs1, st1))
    (h2 : process st1 v = .ok (o, st2))
    (h3 : processTick later st2 = .ok (outs2, st3)) :
    st1.playerinfos[v]? = st.playerinfos[v]? ∧
    st3.playerinfos[v]? = st2.playerinfos[v]? :=
  ⟨processTick_preserves_unprocessed_rows earlier st outs1 st1 h1 v hv1,
   processTick_preserves_unprocessed_rows later st2 outs2 st3 h3 v hv2⟩

/-- Witness for C4 at a concrete tick: viewers `[3]` before and `[7]` after
viewer 0, over the empty registry (a missing viewer's `process` returns the
empty buffer and leaves the state unchanged). -/
theorem aging_per_viewer_not_observed_by_others_witness :
    ({ playerinfos := [], playerupdates := [] } : PlayerInfo).playerinfos[0]? =
      ({ playerinfos := [], playerupdates := [] } : PlayerInfo).playerinfos[0]? ∧
    ({ playerinfos := [], playerupdates := [] } : PlayerInfo).playerinfos[0]? =
      ({ playerinfos := [], playerupdates := [] } : PlayerInfo).playerinfos[0]? :=
  aging_per_viewer_not_observed_by_others [3] [7] 0
    { playerinfos := [], playerupdates := [] }
    { playerinfos := [], playerupdates := [] }
    { playerinfos := [], playerupdates := [] }
    { playerinfos := [], playerupdates := [] }
    [[]] [[]] [] (by decide) (by decide) rfl rfl rfl

/-- The non-skipped body of the local pass can only set `reset`, clear the
movement payload, or OR the `0x2` marker into the flags: the pair's locality
is untouched and its flags either stay or gain the marker. -/
theorem local_body_rel (g : Int) (e : PlayerInfoData)
    (rest : List PlayerInfoData) (i : Nat) (pu : PlayerUpdate)
    (e' : PlayerInfoData) (pu' : PlayerUpdate) (bs : List Bool)
    (ms : List Nat) (sk : Nat)
    (h : local_body g e rest i pu = .ok (e', pu', bs, ms, sk)) :
    e'.is_local = e.is_local ∧
    (e'.flags = e.flags ∨ e'.flags = Int.lor e.flags 0x2) := by
  simp only [local_body] at h
  split at h
  · exact absurd h (by simp)
  · rename_i e1 pu1 bs1 sk1 heq
    have he1 : e' = e1 := by
      split at h
      · split at h
        · exact absurd h (by simp)
        · simp only [Except.ok.injEq, Prod.mk.injEq] at h
          exact h.1.symm
      · simp only [Except.ok.injEq, Prod.mk.injEq] at h
        exact h.1.symm
    subst he1
    clear h
    split at heq
    · split at heq
      · split at heq
        · exact absurd heq (by simp)
        · simp only [Except.ok.injEq, Prod.mk.injEq] at heq
          obtain ⟨h1, -⟩ := heq
          subst h1
          exact ⟨rfl, Or.inl rfl⟩
      · split at heq
        · split at heq
          · exact absurd heq (by simp)
          · simp only [Except.ok.injEq, Prod.mk.injEq] at heq
            obtain ⟨h1, -⟩ := heq
            subst h1
            exact ⟨rfl, Or.inl rfl⟩
        · simp only [Except.ok.injEq, Prod.mk.injEq] at heq
          obtain ⟨h1, -⟩ := heq
          subst h1
          exact ⟨rfl, Or.inl rfl⟩
    · split at heq
      · exact absurd heq (by simp)
      · simp only [Except.ok.injEq, Prod.mk.injEq] at heq
        obtain ⟨h1, -⟩ := heq
        subst h1
        exact ⟨rfl, Or.inr rfl⟩

/-- Pointwise effect of the local pass loop: the processed row extends the
accumulator, and each of the first `fuel` pairs is related to its old value
by `localRel`, while the pairs beyond the loop bound are untouched. -/
theorem lpiGo_pointwise (g : Int) :
    ∀ (fuel i skip : Nat) (updates : List PlayerUpdate) (bacc : List Bool)
      (macc : List Nat) (racc row : List PlayerInfoData) (bs : List Bool)
      (ms : List Nat) (row' : List PlayerInfoData) (upd' : List PlayerUpdate),
      lpiGo g fuel i skip updates bacc macc racc row =
        .ok (bs, ms, row', upd') →
      ∃ rowOut, row' = racc.reverse ++ rowOut ∧
        ∀ j e, row[j]? = some e →
          ∃ e', rowOut[j]? = some e' ∧
            (j < fuel → localRel g e e') ∧ (fuel ≤ j → e' = e) := by
  intro fuel
  induction fuel with
  | zero =>
    intro i skip updates bacc macc racc row bs ms row' upd' h
    simp only [lpiGo, Except.ok.injEq, Prod.mk.injEq] at h
    refine ⟨row, h.2.2.1.symm, ?_⟩
    intro j e hj
    exact ⟨e, hj, fun hlt => absurd hlt (by omega), fun _ => rfl⟩
  | succ fuel ih =>
    intro i skip updates bacc macc racc row bs ms row' upd' h
    cases row with
    | nil => exact absurd h (by simp [lpiGo])
    | cons e rest =>
      rw [lpiGo] at h
      cases hguard : localVisits g e with
      | false =>
        rw [hguard] at h
        rw [if_pos (by simp)] at h
        obtain ⟨rowOut, hrow, hpt⟩ :=
          ih (i + 1) skip updates bacc macc (e :: racc) rest bs ms row' upd' h
        refine ⟨e :: rowOut, ?_, ?_⟩
        · rw [hrow]
          simp [List.reverse_cons, List.append_assoc]
        · intro j eIn hj
          cases j with
          | zero =>
            simp only [List.getElem?_cons_zero, Option.some.injEq] at hj
            subst hj
            exact ⟨e, by simp, fun _ => ⟨rfl, Or.inl rfl, fun _ => rfl⟩,
              fun hle => absurd hle (by omega)⟩
          | succ j =>
            simp only [List.getElem?_cons_succ] at hj
            obtain ⟨e', he', hrel, hfix⟩ := hpt j eIn hj
            exact ⟨e', by simpa using he',
              fun hlt => hrel (by omega), fun hle => hfix (by omega)⟩
      | true =>
        rw [hguard] at h
        rw [if_neg (by simp)] at h
        by_cases hs : skip > 0
        · rw [if_pos hs] at h
          obtain ⟨rowOut, hrow, hpt⟩ :=
            ih (i + 1) (skip - 1) updates bacc macc
              ({ e with flags := Int.lor e.flags 0x2 } :: racc) rest
              bs ms row' upd' h
          refine ⟨{ e with flags := Int.lor e.flags 0x2 } :: rowOut, ?_, ?_⟩
          · rw [hrow]
            simp [List.reverse_cons, List.append_assoc]
          · intro j eIn hj
            cases j with
            | zero =>
              simp only [List.getElem?_cons_zero, Option.some.injEq] at hj
              subst hj
              refine ⟨{ e with flags := Int.lor e.flags 0x2 }, by simp,
                fun _ => ⟨rfl, Or.inr rfl, fun hf => ?_⟩,
                fun hle => absurd hle (by omega)⟩
              rw [hguard] at hf
              exact absurd hf (by simp)
            | succ j =>
              simp only [List.getElem?_cons_succ] at hj
              obtain ⟨e', he', hrel, hfix⟩ := hpt j eIn hj
              exact ⟨e', by simpa using he',
                fun hlt => hrel (by omega), fun hle => hfix (by omega)⟩
        · rw [if_neg hs] at h
          cases hu : updates[i]? with
          | none =>
            rw [hu] at h
            exact absurd h (by simp)
          | some pu =>
            rw [hu] at h
            dsimp only at h
            cases hb : local_body g e rest i pu with
            | error err =>
              rw [hb] at h
              exact absurd h (by simp)
            | ok res =>
              obtain ⟨e1, pu1, bs1, ms1, sk1⟩ := res
              rw [hb] at h
              dsimp only at h
              obtain ⟨hloc, hflg⟩ :=
                local_body_rel g e rest i pu e1 pu1 bs1 ms1 sk1 hb
              obtain ⟨rowOut, hrow, hpt⟩ :=
                ih (i + 1) sk1 (updates.set i pu1) (bs1.reverse ++ bacc)
                  (ms1.reverse ++ macc) (e1 :: racc) rest bs ms row' upd' h
              refine ⟨e1 :: rowOut, ?_, ?_⟩
              · rw [hrow]
                simp [List.reverse_cons, List.append_assoc]
              · intro j eIn hj
                cases j with
                | zero =>
                  simp only [List.getElem?_cons_zero, Option.some.injEq] at hj
                  subst hj
                  refine ⟨e1, by simp, fun _ => ⟨hloc, hflg, fun hf => ?_⟩,
                    fun hle => absurd hle (by omega)⟩
                  rw [hguard] at hf
                  exact absurd hf (by simp)
                | succ j =>
                  simp only [List.getElem?_cons_succ] at hj
                  obtain ⟨e', he', hrel, hfix⟩ := hpt j eIn hj
                  exact ⟨e', by simpa using he',
                    fun hlt => hrel (by omega), fun hle => hfix (by omega)⟩

/-- Pointwise effect of the global pass loop: each of the first `fuel` pairs
is related to its old value by `globalRel` (unvisited pairs untouched,
visited pairs get exactly the `0x2` marker), the rest are untouched. -/
theorem gpiGo_pointwise (g : Int) :
    ∀ (fuel i skip : Nat) (bacc : List Bool)
      (racc row : List PlayerInfoData) (bs : List Bool)
      (row' : List PlayerInfoData),
      gpiGo g fuel i skip bacc racc row = .ok (bs, row') →
      ∃ rowOut, row' = racc.reverse ++ rowOut ∧
        ∀ j e, row[j]? = some e →
          ∃ e', rowOut[j]? = some e' ∧
            (j < fuel → globalRel g e e') ∧ (fuel ≤ j → e' = e) := by
  intro fuel
  induction fuel with
  | zero =>
    intro i skip bacc racc row bs row' h
    simp only [gpiGo, Except.ok.injEq, Prod.mk.injEq] at h
    refine ⟨row, h.2.symm, ?_⟩
    intro j e hj
    exact ⟨e, hj, fun hlt => absurd hlt (by omega), fun _ => rfl⟩
  | succ fuel ih =>
    intro i skip bacc racc row bs row' h
    cases row with
    | nil => exact absurd h (by simp [gpiGo])
    | cons e rest =>
      rw [gpiGo] at h
      cases hguard : globalVisits g e with
      | false =>
        rw [hguard] at h
        rw [if_pos (by simp)] at h
        obtain ⟨rowOut, hrow, hpt⟩ :=
          ih (i + 1) skip bacc (e :: racc) rest bs row' h
        refine ⟨e :: rowOut, ?_, ?_⟩
        · rw [hrow]
          simp [List.reverse_cons, List.append_assoc]
        · intro j eIn hj
          cases j with
          | zero =>
            simp only [List.getElem?_cons_zero, Option.some.injEq] at hj
            subst hj
            exact ⟨e, by simp, fun _ => ⟨rfl, fun _ => rfl,
              fun hv => absurd hv (by simp [hguard])⟩,
              fun hle => absurd hle (by omega)⟩
          | succ j =>
            simp only [List.getElem?_cons_succ] at hj
            obtain ⟨e', he', hrel, hfix⟩ := hpt j eIn hj
            exact ⟨e', by simpa using he',
              fun hlt => hrel (by omega), fun hle => hfix (by omega)⟩
      | true =>
        rw [hguard] at h
        rw [if_neg (by simp)] at h
        by_cases hs : skip > 0
        · rw [if_pos hs] at h
          obtain ⟨rowOut, hrow, hpt⟩ :=
            ih (i + 1) (skip - 1) bacc
              ({ e with flags := Int.lor e.flags 0x2 } :: racc) rest bs row' h
          refine ⟨{ e with flags := Int.lor e.flags 0x2 } :: rowOut, ?_, ?_⟩
          · rw [hrow]
            simp [List.reverse_cons, List.append_assoc]
          · intro j eIn hj
            cases j with
            | zero =>
              simp only [List.getElem?_cons_zero, Option.some.injEq] at hj
              subst hj
              exact ⟨{ e with flags := Int.lor e.flags 0x2 }, by simp,
                fun _ => ⟨rfl, fun hv => absurd hv (by simp [hguard]),
                  fun _ => rfl⟩,
                fun hle => absurd hle (by omega)⟩
            | succ j =>
              simp only [List.getElem?_cons_succ] at hj
              obtain ⟨e', he', hrel, hfix⟩ := hpt j eIn hj
              exact ⟨e', by simpa using he',
                fun hlt => hrel (by omega), fun hle => hfix (by omega)⟩
        · rw [if_neg hs] at h
          cases hsc : get_global_skip_count g (i + 1) rest with
          | error err =>
            rw [hsc] at h
            exact absurd h (by simp)
          | ok sk =>
            rw [hsc] at h
            dsimp only at h
            obtain ⟨rowOut, hrow, hpt⟩ :=
              ih (i + 1) sk
                ( (match write_skip_count (Int.ofNat sk) false with
                  | .ok wbits => wbits
                  | .error _ => []).reverse ++ false :: bacc)
                ({ e with flags := Int.lor e.flags 0x2 } :: racc) rest bs row' h
            refine ⟨{ e with flags := Int.lor e.flags 0x2 } :: rowOut, ?_, ?_⟩
            · rw [hrow]
              simp [List.reverse_cons, List.append_assoc]
            · intro j eIn hj
              cases j with
              | zero =>
                simp only [List.getElem?_cons_zero, Option.some.injEq] at hj
                subst hj
                exact ⟨{ e with flags := Int.lor e.flags 0x2 }, by simp,
                  fun _ => ⟨rfl, fun hv => absurd hv (by simp [hguard]),
                    fun _ => rfl⟩,
                  fun hle => absurd hle (by omega)⟩
              | succ j =>
                simp only [List.getElem?_cons_succ] at hj
                obtain ⟨e', he', hrel, hfix⟩ := hpt j eIn hj
                exact ⟨e', by simpa using he',
                  fun hlt => hrel (by omega), fun hle => hfix (by omega)⟩

/-- Pointwise effect of `local_player_info` on the entries the pass covers. -/
theorem local_player_info_pointwise (row : List PlayerInfoData)
    (upd : List PlayerUpdate) (g : Int) (bs : List Bool) (ms : List Nat)
    (row' : List PlayerInfoData) (upd' : List PlayerUpdate)
    (h : local_player_info row upd g = .ok (bs, ms, row', upd'))
    (j : Nat) (e : PlayerInfoData) (hj : row[j]? = some e)
    (hlt : j < MAX_PLAYERS) :
    ∃ e', row'[j]? = some e' ∧ localRel g e e' := by
  obtain ⟨rowOut, hrow, hpt⟩ :=
    lpiGo_pointwise g MAX_PLAYERS 0 0 upd [] [] [] row bs ms row' upd' h
  obtain ⟨e', he', hrel, -⟩ := hpt j e hj
  exact ⟨e', by simp [hrow, he'], hrel hlt⟩

/-- Pointwise effect of `global_player_info` on the entries the pass covers. -/
theorem global_player_info_pointwise (row : List PlayerInfoData) (g : Int)
    (bs : List Bool) (row' : List PlayerInfoData)
    (h : global_player_info row g = .ok (bs, row'))
    (j : Nat) (e : PlayerInfoData) (hj : row[j]? = some e)
    (hlt : j < MAX_PLAYERS) :
    ∃ e', row'[j]? = some e' ∧ globalRel g e e' := by
  obtain ⟨rowOut, hrow, hpt⟩ :=
    gpiGo_pointwise g MAX_PLAYERS 0 0 [] [] row bs row' h
  obtain ⟨e', he', hrel, -⟩ := hpt j e hj
  exact ⟨e', by simp [hrow, he'], hrel hlt⟩

/-- C6: for one viewer's `process` call, each subject index covered by the
passes is visited by exactly one of the four passes (local-active,
local-inactive, global-inactive, global-active), given the aging invariant
that the pair enters the tick with group flags `0` or `1`; local pairs are
only ever visited by the local passes and global pairs only by the global
passes.  `e0`, `e1`, `e2`, `e3` are the pair's states as seen by the four
passes in turn. -/
theorem four_pass_partition
    (row0 : List PlayerInfoData) (upd0 : List PlayerUpdate)
    (hok1 : (local_player_info row0 upd0 UPDATE_GROUP_ACTIVE).isOk = true)
    (hok2 : (local_player_info (rowAfterLocal row0 upd0 UPDATE_GROUP_ACTIVE)
      (updAfterLocal row0 upd0 UPDATE_GROUP_ACTIVE)
      UPDATE_GROUP_INACTIVE).isOk = true)
    (hok3 : (global_player_info
      (rowAfterLocal (rowAfterLocal row0 upd0 UPDATE_GROUP_ACTIVE)
        (updAfterLocal row0 upd0 UPDATE_GROUP_ACTIVE) UPDATE_GROUP_INACTIVE)
      UPDATE_GROUP_INACTIVE).isOk = true)
    (hok4 : (global_player_info
      (rowAfterGlobal
        (rowAfterLocal (rowAfterLocal row0 upd0 UPDATE_GROUP_ACTIVE)
          (updAfterLocal row0 upd0 UPDATE_GROUP_ACTIVE)
          UPDATE_GROUP_INACTIVE)
        UPDATE_GROUP_INACTIVE)
      UPDATE_GROUP_ACTIVE).isOk = true)
    (i : Nat) (hi : i < MAX_PLAYERS) (e0 e1 e2 e3 : PlayerInfoData)
    (g0 : row0.get? i = some e0)
    (g1 : (rowAfterLocal row0 upd0 UPDATE_GROUP_ACTIVE).get? i = some e1)
    (g2 : (rowAfterLocal (rowAfterLocal row0 upd0 UPDATE_GROUP_ACTIVE)
      (updAfterLocal row0 upd0 UPDATE_GROUP_ACTIVE)
      UPDATE_GROUP_INACTIVE).get? i = some e2)
    (g3 : (rowAfterGlobal
      (rowAfterLocal (rowAfterLocal row0 upd0 UPDATE_GROUP_ACTIVE)
        (updAfterLocal row0 upd0 UPDATE_GROUP_ACTIVE) UPDATE_GROUP_INACTIVE)
      UPDATE_GROUP_INACTIVE).get? i = some e3)
    (hflags : e0.flags = 0 ∨ e0.flags = 1) :
    ((localVisits UPDATE_GROUP_ACTIVE e0).toNat +
      (localVisits UPDATE_GROUP_INACTIVE e1).toNat +
      (globalVisits UPDATE_GROUP_INACTIVE e2).toNat +
      (globalVisits UPDATE_GROUP_ACTIVE e3).toNat = 1) ∧
    ((localVisits UPDATE_GROUP_ACTIVE e0 ||
      localVisits UPDATE_GROUP_INACTIVE e1) = true → e0.is_local = true) ∧
    ((globalVisits UPDATE_GROUP_INACTIVE e2 ||
      globalVisits UPDATE_GROUP_ACTIVE e3) = true → e0.is_local = false) := by
  clear hok4
  rw [List.get?_eq_getElem?] at g0 g1 g2 g3
  rcases hE1 : local_player_info row0 upd0 UPDATE_GROUP_ACTIVE
    with err | ⟨b1, m1, row1, upd1⟩
  · rw [hE1] at hok1
    exact absurd hok1 (by simp [Except.isOk, Except.toBool])
  have hr1 : rowAfterLocal row0 upd0 UPDATE_GROUP_ACTIVE = row1 := by
    simp [rowAfterLocal, hE1]
  have hu1 : updAfterLocal row0 upd0 UPDATE_GROUP_ACTIVE = upd1 := by
    simp [updAfterLocal, hE1]
  rw [hr1] at g1
  rw [hr1, hu1] at hok2 hok3 g2 g3
  rcases hE2 : local_player_info row1 upd1 UPDATE_GROUP_INACTIVE
    with err | ⟨b2, m2, row2, upd2⟩
  · rw [hE2] at hok2
    exact absurd hok2 (by simp [Except.isOk, Except.toBool])
  have hr2 : rowAfterLocal row1 upd1 UPDATE_GROUP_INACTIVE = row2 := by
    simp [rowAfterLocal, hE2]
  rw [hr2] at hok3 g2 g3
  rcases hE3 : global_player_info row2 UPDATE_GROUP_INACTIVE
    with err | ⟨b3, row3⟩
  · rw [hE3] at hok3
    exact absurd hok3 (by simp [Except.isOk, Except.toBool])
  have hr3 : rowAfterGlobal row2 UPDATE_GROUP_INACTIVE = row3 := by
    simp [rowAfterGlobal, hE3]
  rw [hr3] at g3
  obtain ⟨e1', he1', hrel01⟩ :=
    local_player_info_pointwise row0 upd0 UPDATE_GROUP_ACTIVE b1 m1 row1 upd1
      hE1 i e0 g0 hi
  have heq1 : e1' = e1 := by
    have hx := he1'.symm.trans g1
    injection hx
  rw [heq1] at hrel01
  obtain ⟨e2', he2', hrel12⟩ :=
    local_player_info_pointwise row1 upd1 UPDATE_GROUP_INACTIVE b2 m2 row2
      upd2 hE2 i e1 g1 hi
  have heq2 : e2' = e2 := by
    have hx := he2'.symm.trans g2
    injection hx
  rw [heq2] at hrel12
  obtain ⟨e3', he3', hrel23⟩ :=
    global_player_info_pointwise row2 UPDATE_GROUP_INACTIVE b3 row3 hE3 i e2
      g2 hi
  have heq3 : e3' = e3 := by
    have hx := he3'.symm.trans g3
    injection hx
  rw [heq3] at hrel23
  obtain ⟨l01, f01, u01⟩ := hrel01
  obtain ⟨l12, f12, u12⟩ := hrel12
  obtain ⟨l23, u23, v23⟩ := hrel23
  have hland0 : Int.land (0 : Int) 1 = 0 := by decide
  have hland1 : Int.land (1 : Int) 1 = 1 := by decide
  cases hL : e0.is_local with
  | false =>
    have hv1 : localVisits UPDATE_GROUP_ACTIVE e0 = false := by
      simp [localVisits, hL]
    have he10 : e1 = e0 := u01 hv1
    have hv2 : localVisits UPDATE_GROUP_INACTIVE e1 = false := by
      simp [localVisits, he10, hL]
    have he20 : e2 = e0 := by rw [u12 hv2, he10]
    rcases hflags with hf | hf
    · have hv3 : globalVisits UPDATE_GROUP_INACTIVE e2 = false := by
        simp [globalVisits, UPDATE_GROUP_INACTIVE, hland1, he20, hf]
      have he30 : e3 = e0 := by rw [u23 hv3, he20]
      have hv4 : globalVisits UPDATE_GROUP_ACTIVE e3 = true := by
        simp [globalVisits, UPDATE_GROUP_ACTIVE, hland0, he30, hf, hL]
      refine ⟨by simp [hv1, hv2, hv3, hv4], ?_, ?_⟩
      · rw [hv1, hv2]
        simp
      · intro _
        rfl
    · have hv3 : globalVisits UPDATE_GROUP_INACTIVE e2 = true := by
        simp [globalVisits, UPDATE_GROUP_INACTIVE, hland1, he20, hf, hL]
      have hf3 : e3.flags = 3 := by
        rw [v23 hv3, he20, hf]
        decide
      have hv4 : globalVisits UPDATE_GROUP_ACTIVE e3 = false := by
        simp [globalVisits, UPDATE_GROUP_ACTIVE, hland0, hf3]
      refine ⟨by simp [hv1, hv2, hv3, hv4], ?_, ?_⟩
      · rw [hv1, hv2]
        simp
      · intro _
        rfl
  | true =>
    rcases hflags with hf | hf
    · have hv1 : localVisits UPDATE_GROUP_ACTIVE e0 = true := by
        simp [localVisits, UPDATE_GROUP_ACTIVE, hland0, hL, hf]
      have hf1 : e1.flags = 0 ∨ e1.flags = 2 := by
        rcases f01 with hc | hc
        · exact Or.inl (by rw [hc, hf])
        · refine Or.inr ?_
          rw [hc, hf]
          decide
      have hv2 : localVisits UPDATE_GROUP_INACTIVE e1 = false := by
        rcases hf1 with hc | hc <;>
          simp [localVisits, UPDATE_GROUP_INACTIVE, hland1, hc]
      have he21 : e2 = e1 := u12 hv2
      have hl2 : e2.is_local = true := by rw [he21, l01, hL]
      have hv3 : globalVisits UPDATE_GROUP_INACTIVE e2 = false := by
        simp [globalVisits, hl2]
      have he32 : e3 = e2 := u23 hv3
      have hl3 : e3.is_local = true := by rw [he32, hl2]
      have hv4 : globalVisits UPDATE_GROUP_ACTIVE e3 = false := by
        simp [globalVisits, hl3]
      refine ⟨by simp [hv1, hv2, hv3, hv4], ?_, ?_⟩
      · intro _
        rfl
      · rw [hv3, hv4]
        simp
    · have hv1 : localVisits UPDATE_GROUP_ACTIVE e0 = false := by
        simp [localVisits, UPDATE_GROUP_ACTIVE, hland0, hf]
      have he10 : e1 = e0 := u01 hv1
      have hv2 : localVisits UPDATE_GROUP_INACTIVE e1 = true := by
        simp [localVisits, UPDATE_GROUP_INACTIVE, hland1, he10, hL, hf]
      have hl2 : e2.is_local = true := by rw [l12, he10, hL]
      have hv3 : globalVisits UPDATE_GROUP_INACTIVE e2 = false := by
        simp [globalVisits, hl2]
      have he32 : e3 = e2 := u23 hv3
      have hl3 : e3.is_local = true := by rw [he32, hl2]
      have hv4 : globalVisits UPDATE_GROUP_ACTIVE e3 = false := by
        simp [globalVisits, hl3]
      refine ⟨by simp [hv1, hv2, hv3, hv4], ?_, ?_⟩
      · intro _
        rfl
      · rw [hv3, hv4]
        simp

set_option maxRecDepth 40000 in
/-- Witness for C6: a full row of fresh non-local pairs, subject index 0 —
visited exactly once, by the global-active pass. -/
theorem four_pass_partition_witness :
    ((localVisits UPDATE_GROUP_ACTIVE (mkPlayerInfoData false 0)).toNat +
      (localVisits UPDATE_GROUP_INACTIVE (mkPlayerInfoData false 0)).toNat +
      (globalVisits UPDATE_GROUP_INACTIVE (mkPlayerInfoData false 0)).toNat +
      (globalVisits UPDATE_GROUP_ACTIVE (mkPlayerInfoData false 0)).toNat
      = 1) ∧
    ((localVisits UPDATE_GROUP_ACTIVE (mkPlayerInfoData false 0) ||
      localVisits UPDATE_GROUP_INACTIVE (mkPlayerInfoData false 0)) = true →
      (mkPlayerInfoData false 0).is_local = true) ∧
    ((globalVisits UPDATE_GROUP_INACTIVE (mkPlayerInfoData false 0) ||
      globalVisits UPDATE_GROUP_ACTIVE (mkPlayerInfoData false 0)) = true →
      (mkPlayerInfoData false 0).is_local = false) :=
  four_pass_partition
    (List.replicate MAX_PLAYERS (mkPlayerInfoData false 0)) []
    rfl rfl rfl rfl 0 (by decide)
    (mkPlayerInfoData false 0) (mkPlayerInfoData false 0)
    (mkPlayerInfoData false 0) (mkPlayerInfoData false 0)
    rfl rfl rfl rfl (Or.inl rfl)
